import Mathlib

/-!
Verification of the filter/dedupe/scheduling decision engine of the
CA-monitoring repository (src/: filters.py, utils.py, models.py, storage.py,
task_scheduler.py, main.py).

Conventions of the shallow embedding:
* Python floats and epoch timestamps are modelled as rationals (`ℚ`); the
  claims under study depend only on ordering and exact arithmetic, never on
  binary rounding.
* Python `None` is `Option.none`.
* The diagnostic reason strings produced by `check_range` are modelled by the
  inductive type `Reason`: `Reason.missing` stands for `"missing"`,
  `Reason.lt b` for the f-string `"< {b}"` and `Reason.gt b` for `"> {b}"`.
  A reason entry of the filter evaluator pairs the field name with its
  `Reason`, standing for the source's `f"{name} {msg}"` (and the literal
  `"open_minutes missing"` is `("open_minutes", Reason.missing)`).
* Python dicts keyed by strings are modelled as total maps `String → Option _`.
-/

/-- Reason component of a failed range check (utils.py `check_range`):
`missing` models the string "missing", `lt b` models "< {b}", `gt b`
models "> {b}". -/
inductive Reason where
  | missing : Reason
  | lt : ℚ → Reason
  | gt : ℚ → Reason
deriving DecidableEq

/-- models.py `FilterRange`: an optional [min, max] numeric bound. -/
structure FilterRange where
  min : Option ℚ := none
  max : Option ℚ := none
deriving DecidableEq

/-- models.py `FilterRange.is_set`: true iff at least one bound is non-null. -/
def FilterRange.is_set (r : FilterRange) : Bool :=
  r.min.isSome || r.max.isSome

/-- utils.py `check_range` (lines 8-17), transcribed clause by clause.  The
source tests `value < r.min` before `value > r.max`; the four-way match on
the two optional bounds expands those two sequential `if` statements. -/
def check_range (value : Option ℚ) (r : FilterRange) : Bool × Option Reason :=
  if !r.is_set then (true, none)
  else
    match value with
    | none => (false, some Reason.missing)
    | some v =>
      match r.min, r.max with
      | some lo, some hi =>
        if v < lo then (false, some (Reason.lt lo))
        else if v > hi then (false, some (Reason.gt hi))
        else (true, none)
      | some lo, none =>
        if v < lo then (false, some (Reason.lt lo)) else (true, none)
      | none, some hi =>
        if v > hi then (false, some (Reason.gt hi)) else (true, none)
      | none, none => (true, none)

/-- models.py `TokenMetrics`, restricted to the scalar fields the filter
evaluator and orchestrator read.  Timestamps are epoch seconds as `ℚ`.
The two sniffer scores are the fields written in place by
data_fetcher.py `fetch_risk_scores` and read by filters.py and main.py
(models.py itself omits them; claim C3 records that omission). -/
structure TokenMetrics where
  chain : String := ""
  address : String := ""
  symbol : String := ""
  name : Option String := none
  price_usd : Option ℚ := none
  price_change_5m : Option ℚ := none
  market_cap : Option ℚ := none
  liquidity_usd : Option ℚ := none
  pool_created_at : Option ℚ := none
  first_trade_at : Option ℚ := none
  trades_5m : Option ℤ := none
  holders : Option ℤ := none
  top10_ratio : Option ℚ := none
  max_holder_ratio : Option ℚ := none
  sol_sniffer_score : Option ℚ := none
  token_sniffer_score : Option ℚ := none
deriving DecidableEq

/-- `FilterConfig` as the rest of the program uses it: the seven ranges
declared in models.py (lines 41-48) plus the two risk-score ranges that
state.py constructs and serializes and filters.py reads.  models.py
declares only the first seven; claim C3 records the mismatch. -/
structure FilterConfig where
  market_cap_usd : FilterRange := {}
  liquidity_usd : FilterRange := {}
  open_minutes : FilterRange := {}
  top10_ratio : FilterRange := {}
  holder_count : FilterRange := {}
  max_holder_ratio : FilterRange := {}
  trades_5m : FilterRange := {}
  sol_sniffer_score : FilterRange := {}
  token_sniffer_score : FilterRange := {}
deriving DecidableEq

/-- Field names declared on `FilterConfig` in models.py, lines 41-48. -/
def filterConfigDeclaredFields : List String :=
  ["market_cap_usd", "liquidity_usd", "open_minutes", "top10_ratio",
   "holder_count", "max_holder_ratio", "trades_5m"]

/-- Attribute names `need_risk_check` (filters.py line 92) reads off its
`FilterConfig` argument. -/
def needRiskCheckFieldsRead : List String :=
  ["sol_sniffer_score", "token_sniffer_score"]

/-- filters.py `_convert_to_float`: `None` stays `None`; the numeric field
values the evaluator feeds it (ints and floats) convert losslessly, so on
the embedded domain it is the identity. -/
def convert_to_float (v : Option ℚ) : Option ℚ := v

/-- One iteration of the reason-collecting loop in filters.py
`apply_filters`: run `check_range` and, on failure, emit `f"{name} {msg}"`. -/
def fieldCheck (name : String) (value : Option ℚ) (fr : FilterRange) :
    List (String × Reason) :=
  let r := check_range (convert_to_float value) fr
  if r.1 then [] else [(name, r.2.getD Reason.missing)]

/-- filters.py `apply_filters` (lines 10-54).  `now` is the value of
`datetime.utcnow()` in epoch seconds; the pool-age check divides the age in
seconds by 60 exactly as the source does. -/
def apply_filters (m : TokenMetrics) (cfg : FilterConfig) (now : ℚ)
    (include_risk : Bool) : Bool × List (String × Reason) :=
  let basic :=
    fieldCheck "market_cap_usd" m.market_cap cfg.market_cap_usd ++
    fieldCheck "liquidity_usd" m.liquidity_usd cfg.liquidity_usd ++
    fieldCheck "top10_ratio" m.top10_ratio cfg.top10_ratio ++
    fieldCheck "holder_count" (m.holders.map (fun n => (n : ℚ))) cfg.holder_count ++
    fieldCheck "max_holder_ratio" m.max_holder_ratio cfg.max_holder_ratio ++
    fieldCheck "trades_5m" (m.trades_5m.map (fun n => (n : ℚ))) cfg.trades_5m
  let openPart :=
    if cfg.open_minutes.is_set then
      match m.first_trade_at.orElse (fun _ => m.pool_created_at) with
      | none => [("open_minutes", Reason.missing)]
      | some t =>
        let minutes := (now - t) / 60
        let r := check_range (some minutes) cfg.open_minutes
        if r.1 then [] else [("open_minutes", r.2.getD Reason.missing)]
    else []
  let riskPart :=
    if include_risk then
      fieldCheck "sol_sniffer_score" m.sol_sniffer_score cfg.sol_sniffer_score ++
      fieldCheck "token_sniffer_score" m.token_sniffer_score cfg.token_sniffer_score
    else []
  let reasons := basic ++ openPart ++ riskPart
  (reasons.isEmpty, reasons)

/-- filters.py `apply_basic_filters` (lines 57-59). -/
def apply_basic_filters (m : TokenMetrics) (cfg : FilterConfig) (now : ℚ) :
    Bool × List (String × Reason) :=
  apply_filters m cfg now false

/-- filters.py `apply_risk_filters` (lines 62-87): a configured risk range is
skipped when the metric value is `None`. -/
def apply_risk_filters (m : TokenMetrics) (cfg : FilterConfig) :
    Bool × List (String × Reason) :=
  let step := fun (name : String) (value : Option ℚ) (fr : FilterRange) =>
    if !fr.is_set then ([] : List (String × Reason))
    else
      match convert_to_float value with
      | none => []
      | some v =>
        let r := check_range (some v) fr
        if r.1 then [] else [(name, r.2.getD Reason.missing)]
  let reasons :=
    step "sol_sniffer_score" m.sol_sniffer_score cfg.sol_sniffer_score ++
    step "token_sniffer_score" m.token_sniffer_score cfg.token_sniffer_score
  (reasons.isEmpty, reasons)

/-- filters.py `need_risk_check` (lines 90-92). -/
def need_risk_check (cfg : FilterConfig) : Bool :=
  cfg.sol_sniffer_score.is_set || cfg.token_sniffer_score.is_set

/-- data_fetcher.py `fetch_risk_scores` effect on the metrics record
(lines 623-629): both sniffer fields are assigned the fetched values. -/
def setRiskScores (m : TokenMetrics) (sol tok : Option ℚ) : TokenMetrics :=
  { m with sol_sniffer_score := sol, token_sniffer_score := tok }

/-- Outcome of the orchestrated two-phase filter evaluation in main.py
`process_ca` (lines 249-275): final passed flag, accumulated reasons, and
whether the risk-score fetch was invoked. -/
structure EvalOutcome where
  passed : Bool
  reasons : List (String × Reason)
  risk_fetched : Bool
deriving DecidableEq

/-- main.py `process_ca` lines 249-275: basic filters first; only when they
pass and a risk range is configured are the risk scores fetched (`sol`,
`tok` are the values the provider would return), after which
`apply_risk_filters` runs on the enriched metrics.  The source then sets
`passed = risk_passed` and extends the reason list. -/
def evaluate (m : TokenMetrics) (cfg : FilterConfig) (now : ℚ)
    (sol tok : Option ℚ) : EvalOutcome :=
  let basic := apply_basic_filters m cfg now
  if basic.1 then
    if need_risk_check cfg then
      let m2 := setRiskScores m sol tok
      let risk := apply_risk_filters m2 cfg
      { passed := risk.1, reasons := basic.2 ++ risk.2, risk_fetched := true }
    else { passed := basic.1, reasons := basic.2, risk_fetched := false }
  else { passed := basic.1, reasons := basic.2, risk_fetched := false }

/-! ## Time-window gate (task_scheduler.py `_is_in_time_window`, lines 331-383)

String processing is modelled on the character list backing a `String`, so
every definition kernel-evaluates.  `pyIntChars` models Python `int(str)` on
ASCII inputs: surrounding whitespace is stripped, one optional sign is
allowed, and the remainder must be a non-empty run of decimal digits (the
rarely used underscore digit separators and non-ASCII digits accepted by
CPython are outside the modelled domain; no task configuration in this
repository uses them). -/

/-- Characters Python `str.strip` and `int()` discard around a token. -/
def isSpaceChar (c : Char) : Bool :=
  c = ' ' || c = '\t' || c = '\n' || c = '\r' || c = '\x0b' || c = '\x0c'

/-- Strip leading and trailing whitespace, as Python `str.strip()`. -/
def trimChars (cs : List Char) : List Char :=
  ((cs.dropWhile isSpaceChar).reverse.dropWhile isSpaceChar).reverse

/-- Split on the `:` separator, as Python `str.split(":")` (which yields
one more piece than there are separators, never dropping empty pieces). -/
def splitColonChars : List Char → List Char → List (List Char)
  | [], acc => [acc.reverse]
  | c :: rest, acc =>
    if c = ':' then acc.reverse :: splitColonChars rest []
    else splitColonChars rest (c :: acc)

/-- Python `int(str)` on an ASCII token: `none` models the `ValueError`. -/
def pyIntChars (cs : List Char) : Option Int :=
  let t := trimChars cs
  let neg := t.headD ' ' = '-'
  let core := if t.headD ' ' = '-' || t.headD ' ' = '+' then t.drop 1 else t
  if core ≠ [] ∧ core.all Char.isDigit then
    let n : ℕ := core.foldl (fun acc c => acc * 10 + (c.toNat - 48)) 0
    some (if neg then -(n : Int) else (n : Int))
  else none

/-- The `int(h) * 60 + int(m)` computation on one `"HH:MM"` field of
`_is_in_time_window` (lines 342-349): strip, split on `:`, require exactly
two integer-parseable pieces; `none` models the exception path. -/
def parseHM (s : String) : Option Int :=
  match splitColonChars (trimChars s.data) [] with
  | [hs, ms] =>
    match pyIntChars hs, pyIntChars ms with
    | some h, some m => some (h * 60 + m)
    | _, _ => none
  | _ => none

/-- Python truthiness of an optional string field (`task.get(...)`):
present and non-empty. -/
def strTruthy : Option String → Bool
  | none => false
  | some s => decide (s ≠ "")

/-- task_scheduler.py `_is_in_time_window` (lines 331-383), with the current
wall clock abstracted to `nowMinutes`, its minutes-since-midnight in the
fixed UTC+8 task timezone.  A parse failure on a configured field takes the
`except` path and returns `true`; both fields unset (absent or empty)
returns `true`; otherwise the window comparison runs, wrapping past
midnight when `start > end`. -/
def isInTimeWindow (startT endT : Option String) (nowMinutes : ℕ) : Bool :=
  if strTruthy startT = false ∧ strTruthy endT = false then true
  else if strTruthy startT ∧ (parseHM (startT.getD "")).isNone then true
  else if strTruthy endT ∧ (parseHM (endT.getD "")).isNone then true
  else
    let sm? : Option Int := if strTruthy startT then parseHM (startT.getD "") else none
    let em? : Option Int := if strTruthy endT then parseHM (endT.getD "") else none
    match sm?, em? with
    | some sm, some em =>
      if sm ≤ em then decide (sm ≤ (nowMinutes : Int) ∧ (nowMinutes : Int) ≤ em)
      else decide ((nowMinutes : Int) ≥ sm ∨ (nowMinutes : Int) ≤ em)
    | some sm, none => decide ((nowMinutes : Int) ≥ sm)
    | none, some em => decide ((nowMinutes : Int) ≤ em)
    | none, none => true

/-! ## Dedupe store (storage.py `DedupeStore`, lines 11-48) -/

/-- State of storage.py `DedupeStore`: the `memory` dict as a total map from
key to recorded expiry, plus `_last_cleanup`. -/
structure DedupeState where
  memory : String → Option ℚ
  last_cleanup : ℚ

/-- storage.py `_cleanup_interval` (line 17). -/
def cleanupInterval : ℚ := 300

/-- The periodic sweep inside `seen` (lines 26-34): drop every entry whose
recorded expiry is strictly below `now`. -/
def sweepExpired (mem : String → Option ℚ) (now : ℚ) : String → Option ℚ :=
  fun k =>
    match mem k with
    | some e => if e < now then none else some e
    | none => none

/-- storage.py `DedupeStore.seen` (lines 19-48) at wall-clock `now`:
opportunistic sweep, then atomic check-and-set.  The `except` fail-open
branch is unreachable in the pure model and is not represented. -/
def dedupeSeen (key : String) (ttl : ℚ) (now : ℚ) (s : DedupeState) :
    Bool × DedupeState :=
  let s1 :=
    if now - s.last_cleanup > cleanupInterval then
      { memory := sweepExpired s.memory now, last_cleanup := now }
    else s
  match s1.memory key with
  | some e =>
    if e > now then (true, s1)
    else
      (false, { s1 with memory := fun k => if k = key then some (now + ttl) else s1.memory k })
  | none =>
    (false, { s1 with memory := fun k => if k = key then some (now + ttl) else s1.memory k })

/-! ## Task scheduler (task_scheduler.py `TaskScheduler`) -/

/-- The scheduling-relevant fields of one task dict built by `load_tasks`
(lines 40-52); `id`, `name`, `client`, `chain`, `ca` and `targets` play no
role in the gating and due-time logic studied here. -/
structure SchedTask where
  enabled : Bool
  next_run : ℚ
  interval_minutes : ℤ
  start_time : Option String
  end_time : Option String
deriving DecidableEq

/-- The `has_window` truthiness test of `_run_loop` line 162. -/
def hasWindow (t : SchedTask) : Bool :=
  strTruthy t.start_time || strTruthy t.end_time

/-- The task's window test against the current minutes-since-midnight. -/
def inWindow (t : SchedTask) (nm : ℕ) : Bool :=
  isInTimeWindow t.start_time t.end_time nm

/-- The automatic enable/disable gate at the top of each `_run_loop`
iteration (lines 162-183); `now` is `time.time()` of the tick. -/
def gateTask (t : SchedTask) (now : ℚ) (nm : ℕ) : SchedTask :=
  if hasWindow t then
    if t.enabled = true ∧ inWindow t nm = false then { t with enabled := false }
    else if t.enabled = false ∧ inWindow t nm = true then
      { t with enabled := true, next_run := now }
    else t
  else t

/-- The out-of-window `next_run` recomputation of `_run_loop` (lines
191-209, repeated verbatim at 216-234).  `todayAt mins` is the epoch
timestamp of today's given minute-of-day with seconds zeroed in the fixed
UTC+8 timezone, so "same clock time tomorrow" is `todayAt mins + 86400`.
`datetime.replace` raises (caught, leaving the task unchanged) when the
parsed hour or minute is out of range. -/
def recomputeNextRun (t : SchedTask) (nm : ℕ) (todayAt : ℕ → ℚ) : SchedTask :=
  if strTruthy t.start_time then
    match splitColonChars (t.start_time.getD "").data [] with
    | [hs, ms] =>
      match pyIntChars hs, pyIntChars ms with
      | some h, some m =>
        if 0 ≤ h ∧ h ≤ 23 ∧ 0 ≤ m ∧ m ≤ 59 then
          let sm := h * 60 + m
          if (nm : Int) < sm then { t with next_run := todayAt sm.toNat }
          else { t with next_run := todayAt sm.toNat + 86400 }
        else t
      | _, _ => t
    | _ => t
  else t

/-- One `_run_loop` iteration for a single task (lines 149-242), with the
tick observing a single wall clock (`now` epoch seconds, `nm` its
minutes-since-midnight in UTC+8).  The returned flag is whether the tick
dispatched `asyncio.create_task(self._run_task(task))`. -/
def tickTask (t : SchedTask) (now : ℚ) (nm : ℕ) (todayAt : ℕ → ℚ) : SchedTask × Bool :=
  let t1 := gateTask t now nm
  if t1.enabled = false then (t1, false)
  else if inWindow t1 nm = false then (recomputeNextRun t1 nm todayAt, false)
  else if now ≥ t1.next_run then
    if inWindow t1 nm = false then (recomputeNextRun t1 nm todayAt, false)
    else ({ t1 with next_run := now + (t1.interval_minutes : ℚ) * 60 }, true)
  else (t1, false)

/-- task_scheduler.py `pause` (lines 126-132) applied to a matching task. -/
def pauseTask (t : SchedTask) : SchedTask := { t with enabled := false }

/-- task_scheduler.py `resume` (lines 134-142) applied to a matching task. -/
def resumeTask (t : SchedTask) (now : ℚ) : SchedTask :=
  { t with enabled := true, next_run := now }

/-! ## Orchestrator (main.py `process_ca`, lines 172-399) -/

/-- The externally observable stages of one `process_ca` invocation.
`fetch` covers the metrics and chart-bar fetches of lines 201-221,
`render` the chart rendering of line 312, and `notify` the push loop of
lines 336-393. -/
inductive Stage where
  | dedupe_check : Stage
  | fetch : Stage
  | basic_filter : Stage
  | risk_fetch : Stage
  | risk_filter : Stage
  | render : Stage
  | notify : Stage
deriving DecidableEq

/-- Position of each stage in the canonical pipeline order. -/
def stageRank : Stage → ℕ
  | Stage.dedupe_check => 0
  | Stage.fetch => 1
  | Stage.basic_filter => 2
  | Stage.risk_fetch => 3
  | Stage.risk_filter => 4
  | Stage.render => 5
  | Stage.notify => 6

/-- Result of one `process_ca` invocation: the dedupe store afterwards, the
ordered trace of stages that ran, and whether the invocation completed
without an error message. -/
structure ProcResult where
  dedupe : DedupeState
  trace : List Stage
  ok : Bool

/-- The body of `process_ca` after the dedupe gate (main.py lines 196-399):
fetch, two-phase filter evaluation, render, then—only in auto mode, when
the filters passed—the push loop.  External outcomes are abstracted by
`fetch_ok` (metrics and chart bars obtained), `sol`/`tok` (what
`fetch_risk_scores` would store) and `render_ok`. -/
def processAfterDedupe (force_push : Bool) (now : ℚ) (fetch_ok : Bool)
    (m : TokenMetrics) (cfg : FilterConfig) (sol tok : Option ℚ)
    (render_ok : Bool) (s : DedupeState) (tr : List Stage) : ProcResult :=
  if fetch_ok = false then { dedupe := s, trace := tr ++ [Stage.fetch], ok := false }
  else
    let ev := evaluate m cfg now sol tok
    let tr2 := tr ++ [Stage.fetch, Stage.basic_filter] ++
      (if ev.risk_fetched then [Stage.risk_fetch, Stage.risk_filter] else [])
    if render_ok = false then
      { dedupe := s, trace := tr2 ++ [Stage.render], ok := false }
    else if force_push then
      { dedupe := s, trace := tr2 ++ [Stage.render], ok := true }
    else if ev.passed then
      { dedupe := s, trace := tr2 ++ [Stage.render, Stage.notify], ok := true }
    else
      { dedupe := s, trace := tr2 ++ [Stage.render], ok := true }

/-- main.py `process_ca` (lines 172-399).  When `force_push` is false the
invocation starts with the single atomic `dedupe.seen(key, ttl=86400)`
call (lines 187-194), which both checks and records the key; a seen key
returns silently.  When `force_push` is true the dedupe store is never
touched.  No further dedupe call occurs anywhere in the function. -/
def process_ca (force_push : Bool) (key : String) (now : ℚ) (fetch_ok : Bool)
    (m : TokenMetrics) (cfg : FilterConfig) (sol tok : Option ℚ)
    (render_ok : Bool) (s : DedupeState) : ProcResult :=
  if force_push then
    processAfterDedupe true now fetch_ok m cfg sol tok render_ok s []
  else
    let r := dedupeSeen key 86400 now s
    if r.1 then { dedupe := r.2, trace := [Stage.dedupe_check], ok := true }
    else
      processAfterDedupe false now fetch_ok m cfg sol tok render_ok r.2
        [Stage.dedupe_check]

/-- task_scheduler.py `_run_task` line 405 calls
`self.process_ca(chain, ca, True, task_id=...)`: the `force_push` argument
of every scheduler-triggered invocation. -/
def run_task_force_push : Bool := true

/-! ## Claim theorems -/

/-- C1: the orchestrated two-phase evaluation of main.py `process_ca`
(lines 249-275) is the basic phase followed, exactly when the basic phase
passed and a risk range is configured, by the risk phase; the final passed
flag is the boolean AND of the phases (the source writes
`passed = risk_passed`, which coincides because the risk phase only runs
after `basic_passed`), the reason lists are concatenated, and when the
basic phase fails the risk fetch does not run and contributes no reasons. -/
theorem C1_evaluate_two_phase :
    ∀ (m : TokenMetrics) (cfg : FilterConfig) (now : ℚ) (sol tok : Option ℚ),
    (evaluate m cfg now sol tok).risk_fetched
        = ((apply_basic_filters m cfg now).1 && need_risk_check cfg)
    ∧ (evaluate m cfg now sol tok).passed
        = ((apply_basic_filters m cfg now).1 &&
           (!need_risk_check cfg || (apply_risk_filters (setRiskScores m sol tok) cfg).1))
    ∧ (evaluate m cfg now sol tok).reasons
        = (apply_basic_filters m cfg now).2 ++
          (if (apply_basic_filters m cfg now).1 && need_risk_check cfg
           then (apply_risk_filters (setRiskScores m sol tok) cfg).2
           else []) := by
  intro m cfg now sol tok
  cases hb : (apply_basic_filters m cfg now).1 <;>
    cases hn : need_risk_check cfg <;>
      simp [evaluate, hb, hn]

/-- C2: filters.py `apply_risk_filters` skips a configured risk range whose
metric value is null: the outcome is the same as if that range were unset,
the field contributes no failure reason, and the overall flag is false
exactly when some non-null score violates its configured range. -/
theorem C2_risk_null_skipped :
    ∀ (m : TokenMetrics) (cfg : FilterConfig),
    (m.sol_sniffer_score = none →
      apply_risk_filters m cfg
        = apply_risk_filters m { cfg with sol_sniffer_score := {} })
    ∧ (m.token_sniffer_score = none →
      apply_risk_filters m cfg
        = apply_risk_filters m { cfg with token_sniffer_score := {} })
    ∧ (m.sol_sniffer_score = none →
        ∀ p ∈ (apply_risk_filters m cfg).2, p.1 ≠ "sol_sniffer_score")
    ∧ (m.token_sniffer_score = none →
        ∀ p ∈ (apply_risk_filters m cfg).2, p.1 ≠ "token_sniffer_score")
    ∧ ((apply_risk_filters m cfg).1 = false ↔
        ((∃ v, m.sol_sniffer_score = some v ∧ cfg.sol_sniffer_score.is_set = true
            ∧ (check_range (some v) cfg.sol_sniffer_score).1 = false)
         ∨ (∃ v, m.token_sniffer_score = some v ∧ cfg.token_sniffer_score.is_set = true
            ∧ (check_range (some v) cfg.token_sniffer_score).1 = false))) := by
  intro m cfg
  refine ⟨?_, ?_, ?_, ?_, ?_⟩
  · intro h
    simp [apply_risk_filters, convert_to_float, h, FilterRange.is_set]
  · intro h
    simp [apply_risk_filters, convert_to_float, h, FilterRange.is_set]
  · intro h
    cases ht : m.token_sniffer_score <;>
      simp [apply_risk_filters, convert_to_float, h, ht]
    intro a b _ _ ha _
    subst ha
    decide
  · intro h
    cases hs : m.sol_sniffer_score <;>
      simp [apply_risk_filters, convert_to_float, h, hs]
    intro a b _ _ ha _
    subst ha
    decide
  · cases hs : m.sol_sniffer_score with
    | none =>
      cases ht : m.token_sniffer_score with
      | none => simp [apply_risk_filters, convert_to_float, hs, ht]
      | some w =>
        cases hc : (check_range (some w) cfg.token_sniffer_score).1 <;>
          cases hset : cfg.token_sniffer_score.is_set <;>
            simp [apply_risk_filters, convert_to_float, hs, ht, hc, hset]
    | some v =>
      cases ht : m.token_sniffer_score with
      | none =>
        cases hc : (check_range (some v) cfg.sol_sniffer_score).1 <;>
          cases hset : cfg.sol_sniffer_score.is_set <;>
            simp [apply_risk_filters, convert_to_float, hs, ht, hc, hset]
      | some w =>
        cases hc1 : (check_range (some v) cfg.sol_sniffer_score).1 <;>
          cases hset1 : cfg.sol_sniffer_score.is_set <;>
            cases hc2 : (check_range (some w) cfg.token_sniffer_score).1 <;>
              cases hset2 : cfg.token_sniffer_score.is_set <;>
                simp [apply_risk_filters, convert_to_float, hs, ht, hc1, hset1, hc2, hset2]

/-- Metrics sample for the C2 witness: the SolSniffer provider returned
nothing, the TokenSniffer provider returned 10. -/
def riskSampleMetrics : TokenMetrics :=
  { sol_sniffer_score := none, token_sniffer_score := some 10 }

/-- Config sample for the C2 witness: both risk ranges configured. -/
def riskSampleConfig : FilterConfig :=
  { sol_sniffer_score := { min := some 50 }, token_sniffer_score := { min := some 80 } }

/-- Witness for C2 at a concrete input: the null SolSniffer score behaves
as if its range were unset, and the overall failure is caused only by the
returned-and-violating TokenSniffer score. -/
theorem C2_risk_null_skipped_witness :
    (apply_risk_filters riskSampleMetrics riskSampleConfig
      = apply_risk_filters riskSampleMetrics
          { riskSampleConfig with sol_sniffer_score := {} })
    ∧ (apply_risk_filters riskSampleMetrics riskSampleConfig).1 = false :=
  ⟨(C2_risk_null_skipped riskSampleMetrics riskSampleConfig).1 rfl,
   ((C2_risk_null_skipped riskSampleMetrics riskSampleConfig).2.2.2.2).mpr
     (Or.inr ⟨10, rfl, rfl, by decide⟩)⟩

/-- C3: filters.py `need_risk_check` reads the attributes
`sol_sniffer_score` and `token_sniffer_score` off its config, but the
`FilterConfig` class of models.py (lines 41-48) declares neither field, so
on any `FilterConfig` actually constructed from models.py the call raises
`AttributeError` (pydantic silently drops the unknown constructor keywords
state.py passes) instead of returning a boolean. -/
theorem C3_models_config_lacks_risk_fields :
    (needRiskCheckFieldsRead.contains "sol_sniffer_score" = true)
    ∧ (filterConfigDeclaredFields.contains "sol_sniffer_score" = false)
    ∧ (needRiskCheckFieldsRead.contains "token_sniffer_score" = true)
    ∧ (filterConfigDeclaredFields.contains "token_sniffer_score" = false) := by
  decide

/-- Counterexample to C4 as stated: for the (unvalidated) range
`min = 10, max = 5` the value 7 is above the max, yet `check_range`
reports the reason `"< 10"` (the min check fires first), not `"> 5"`;
and the boundary `value == min` fails rather than passes. -/
theorem C4_counterexample :
    ((7 : ℚ) > 5)
    ∧ check_range (some 7) ⟨some 10, some 5⟩ = (false, some (Reason.lt 10))
    ∧ (check_range (some 7) ⟨some 10, some 5⟩ == (false, some (Reason.gt 5))) = false
    ∧ check_range (some 10) ⟨some 10, some 5⟩ = (false, some (Reason.gt 5)) := by
  decide

/-- C4 amended: utils.py `check_range` evaluates as an ordered chain —
unset range always passes with null reason; a set range with null value
fails with exactly `"missing"`; `value < min` fails with exactly
`"< {min}"`; otherwise `value > max` fails with exactly `"> {max}"`; and
a value violating neither bound (which includes both boundaries whenever
`min ≤ max` or only one bound is set) passes.  The min check takes
priority, so the `"> {max}"` and boundary bullets of the original claim
hold only under the extra no-min-violation hypotheses below. -/
theorem C4_check_range_cases :
    ∀ (value : Option ℚ) (r : FilterRange),
    (r.is_set = false → check_range value r = (true, none))
    ∧ (r.is_set = true → value = none →
        check_range value r = (false, some Reason.missing))
    ∧ (∀ v lo, value = some v → r.min = some lo → v < lo →
        check_range value r = (false, some (Reason.lt lo)))
    ∧ (∀ v hi, value = some v → r.max = some hi → v > hi →
        (∀ lo, r.min = some lo → ¬ v < lo) →
        check_range value r = (false, some (Reason.gt hi)))
    ∧ (∀ v, value = some v →
        (∀ lo, r.min = some lo → lo ≤ v) →
        (∀ hi, r.max = some hi → v ≤ hi) →
        check_range value r = (true, none)) := by
  intro value r
  obtain ⟨rmin, rmax⟩ := r
  refine ⟨?_, ?_, ?_, ?_, ?_⟩
  · intro h
    simp [check_range, h]
  · intro h hv
    subst hv
    simp [check_range, h]
  · intro v lo hv hlo hvlt
    subst hv
    subst hlo
    cases rmax <;> simp [check_range, FilterRange.is_set, hvlt]
  · intro v hi hv hhi hvgt hnolt
    subst hv
    subst hhi
    cases hm : rmin with
    | none => simp [check_range, FilterRange.is_set, hvgt]
    | some lo =>
      have := hnolt lo hm
      simp [check_range, FilterRange.is_set, hvgt, this]
  · intro v hv hlo hhi
    subst hv
    cases hm : rmin with
    | none =>
      cases hx : rmax with
      | none => simp [check_range, FilterRange.is_set]
      | some hi =>
        have := hhi hi hx
        simp [check_range, FilterRange.is_set, not_lt.mpr this]
    | some lo =>
      have hl := hlo lo hm
      cases hx : rmax with
      | none => simp [check_range, FilterRange.is_set, not_lt.mpr hl]
      | some hi =>
        have hh := hhi hi hx
        simp [check_range, FilterRange.is_set, not_lt.mpr hl, not_lt.mpr hh]

/-- Witness for C4 at concrete inputs: a value below the min fails with
exactly the min reason, and the boundary `value == min` passes for a
well-formed range. -/
theorem C4_check_range_cases_witness :
    check_range (some 3) ⟨some 5, some 7⟩ = (false, some (Reason.lt 5))
    ∧ check_range (some 5) ⟨some 5, some 7⟩ = (true, none) :=
  ⟨(C4_check_range_cases (some 3) ⟨some 5, some 7⟩).2.2.1 3 5 rfl rfl (by norm_num),
   (C4_check_range_cases (some 5) ⟨some 5, some 7⟩).2.2.2.2 5 rfl
     (fun lo h => by cases h; norm_num)
     (fun hi h => by cases h; norm_num)⟩

/-- Counterexample to C5 as stated: `"25:00"` is malformed under the
claim's definition (hour 25 is outside 0-23), so the claim requires
`in_window` to return true; but `int("25")` succeeds, the code computes
`25 * 60 + 0 = 1500` minutes and compares against it, and at 12:00
(720 minutes) the window test returns false — the task is gated, not
unrestricted. -/
theorem C5_counterexample :
    parseHM "25:00" = some 1500
    ∧ ((23 : ℕ) < 25)
    ∧ isInTimeWindow (some "25:00") none 720 = false := by
  decide

/-- C5 amended: `_is_in_time_window` returns true when both fields are
unset (absent or empty); true whenever a configured field fails to parse
(the `except` path: not exactly two `:`-separated integer tokens); and
otherwise compares minutes exactly as the claim states for the
only-start, only-end, same-day and wrapping cases — but a field that
parses as integers with hour or minute out of range (`"25:00"`,
`"10:70"`, a negative hour) is used as the raw value `h*60 + m`, not
treated as "no restriction". -/
theorem C5_in_window_cases :
    ∀ (startT endT : Option String) (nm : ℕ),
    (strTruthy startT = false → strTruthy endT = false →
        isInTimeWindow startT endT nm = true)
    ∧ (∀ s, startT = some s → s ≠ "" → parseHM s = none →
        isInTimeWindow startT endT nm = true)
    ∧ (∀ s, endT = some s → s ≠ "" → parseHM s = none →
        isInTimeWindow startT endT nm = true)
    ∧ (∀ s sm, startT = some s → s ≠ "" → parseHM s = some sm →
        strTruthy endT = false →
        isInTimeWindow startT endT nm = decide ((nm : Int) ≥ sm))
    ∧ (∀ s em, endT = some s → s ≠ "" → parseHM s = some em →
        strTruthy startT = false →
        isInTimeWindow startT endT nm = decide ((nm : Int) ≤ em))
    ∧ (∀ s1 s2 sm em, startT = some s1 → s1 ≠ "" → parseHM s1 = some sm →
        endT = some s2 → s2 ≠ "" → parseHM s2 = some em → sm ≤ em →
        isInTimeWindow startT endT nm
          = decide (sm ≤ (nm : Int) ∧ (nm : Int) ≤ em))
    ∧ (∀ s1 s2 sm em, startT = some s1 → s1 ≠ "" → parseHM s1 = some sm →
        endT = some s2 → s2 ≠ "" → parseHM s2 = some em → em < sm →
        isInTimeWindow startT endT nm
          = decide ((nm : Int) ≥ sm ∨ (nm : Int) ≤ em)) := by
  intro startT endT nm
  refine ⟨?_, ?_, ?_, ?_, ?_, ?_, ?_⟩
  · intro h1 h2
    simp [isInTimeWindow, h1, h2]
  · intro s hs hne hp
    subst hs
    simp [isInTimeWindow, strTruthy, hne, hp]
  · intro s hs hne hp
    subst hs
    cases hst : strTruthy startT with
    | false => simp [isInTimeWindow, strTruthy, hst, hne, hp]
    | true =>
      cases hps : parseHM (startT.getD "") with
      | none => simp [isInTimeWindow, strTruthy, hst, hne, hp, hps]
      | some sm => simp [isInTimeWindow, strTruthy, hst, hne, hp, hps]
  · intro s sm hs hne hp hend
    subst hs
    cases endT with
    | none => simp [isInTimeWindow, strTruthy, hne, hp]
    | some s2 =>
      have h2 : s2 = "" := by
        by_contra hc
        simp [strTruthy, hc] at hend
      subst h2
      simp [isInTimeWindow, strTruthy, hne, hp]
  · intro s em hs hne hp hstart
    subst hs
    cases startT with
    | none => simp [isInTimeWindow, strTruthy, hne, hp]
    | some s1 =>
      have h1 : s1 = "" := by
        by_contra hc
        simp [strTruthy, hc] at hstart
      subst h1
      simp [isInTimeWindow, strTruthy, hne, hp]
  · intro s1 s2 sm em hs1 hne1 hp1 hs2 hne2 hp2 hle
    subst hs1
    subst hs2
    simp [isInTimeWindow, strTruthy, hne1, hne2, hp1, hp2, hle]
  · intro s1 s2 sm em hs1 hne1 hp1 hs2 hne2 hp2 hgt
    subst hs1
    subst hs2
    simp [isInTimeWindow, strTruthy, hne1, hne2, hp1, hp2, not_le.mpr hgt]

/-- Witness for C5 at the spec's own examples: 10:00 is inside
09:00-23:00, and 01:00 is inside the wrapping window 23:00-06:00. -/
theorem C5_in_window_cases_witness :
    isInTimeWindow (some "09:00") (some "23:00") 600 = true
    ∧ isInTimeWindow (some "23:00") (some "06:00") 60 = true :=
  ⟨((C5_in_window_cases (some "09:00") (some "23:00") 600).2.2.2.2.2.1
      "09:00" "23:00" 540 1380 rfl (by decide) (by decide) rfl (by decide)
      (by decide) (by decide)).trans (by decide),
   ((C5_in_window_cases (some "23:00") (some "06:00") 60).2.2.2.2.2.2
      "23:00" "06:00" 1380 360 rfl (by decide) (by decide) rfl (by decide)
      (by decide) (by decide)).trans (by decide)⟩

/-- The expiry sweep never changes which entries are live: an entry with
expiry strictly above `now` survives it unchanged, and it creates none. -/
theorem sweepExpired_live (mem : String → Option ℚ) (now : ℚ) (k : String)
    (e : ℚ) :
    (sweepExpired mem now k = some e ∧ e > now) ↔ (mem k = some e ∧ e > now) := by
  cases h : mem k with
  | none => simp [sweepExpired, h]
  | some e0 =>
    by_cases hlt : e0 < now
    · simp only [sweepExpired, h, if_pos hlt]
      constructor
      · rintro ⟨he, _⟩
        exact absurd he Option.noConfusion
      · rintro ⟨he, hgt⟩
        obtain rfl := Option.some.inj he
        linarith
    · simp [sweepExpired, h, hlt]

/-- The state `seen` consults after the optional sweep agrees with the
original state on live entries. -/
theorem dedupeSeen_sweep_state (now : ℚ) (s : DedupeState) (k : String)
    (e : ℚ) :
    ((if now - s.last_cleanup > cleanupInterval then
        ({ memory := sweepExpired s.memory now, last_cleanup := now } : DedupeState)
      else s).memory k = some e ∧ e > now)
      ↔ (s.memory k = some e ∧ e > now) := by
  by_cases hc : now - s.last_cleanup > cleanupInterval
  · simp only [hc, if_pos]
    exact sweepExpired_live s.memory now k e
  · simp [hc]

/-- `seen` answers true exactly when the queried key is recorded live:
present with an expiry strictly greater than `now`. -/
theorem dedupeSeen_true_iff (key : String) (ttl now : ℚ) (s : DedupeState) :
    (dedupeSeen key ttl now s).1 = true ↔
      ∃ e, s.memory key = some e ∧ e > now := by
  set s1 := if now - s.last_cleanup > cleanupInterval then
      ({ memory := sweepExpired s.memory now, last_cleanup := now } : DedupeState)
    else s with hs1
  have hstep : (dedupeSeen key ttl now s).1 = true ↔
      ∃ e, s1.memory key = some e ∧ e > now := by
    cases h : s1.memory key with
    | none => simp [dedupeSeen, ← hs1, h]
    | some e0 =>
      by_cases hgt : e0 > now
      · simp [dedupeSeen, ← hs1, h, hgt]
      · simp [dedupeSeen, ← hs1, h, hgt]
  rw [hstep]
  constructor
  · rintro ⟨e, he, hgt⟩
    exact ⟨e, ((dedupeSeen_sweep_state now s key e).mp ⟨he, hgt⟩).1, hgt⟩
  · rintro ⟨e, he, hgt⟩
    exact ⟨e, ((dedupeSeen_sweep_state now s key e).mpr ⟨he, hgt⟩).1, hgt⟩

/-- When `seen` answers true it does not write: the resulting state is the
post-sweep state itself. -/
theorem dedupeSeen_true_state (key : String) (ttl now : ℚ) (s : DedupeState) :
    (dedupeSeen key ttl now s).1 = true →
      (dedupeSeen key ttl now s).2
        = (if now - s.last_cleanup > cleanupInterval then
            ({ memory := sweepExpired s.memory now, last_cleanup := now } : DedupeState)
          else s) := by
  intro h
  set s1 := if now - s.last_cleanup > cleanupInterval then
      ({ memory := sweepExpired s.memory now, last_cleanup := now } : DedupeState)
    else s with hs1
  cases hm : s1.memory key with
  | none =>
    exfalso
    have : (dedupeSeen key ttl now s).1 = false := by
      simp [dedupeSeen, ← hs1, hm]
    rw [this] at h
    exact Bool.noConfusion h
  | some e0 =>
    by_cases hgt : e0 > now
    · simp [dedupeSeen, ← hs1, hm, hgt]
    · exfalso
      have : (dedupeSeen key ttl now s).1 = false := by
        simp [dedupeSeen, ← hs1, hm, hgt]
      rw [this] at h
      exact Bool.noConfusion h

/-- When `seen` answers false it has recorded the key as expiring at
`now + ttl`. -/
theorem dedupeSeen_false_lookup (key : String) (ttl now : ℚ) (s : DedupeState) :
    (dedupeSeen key ttl now s).1 = false →
      (dedupeSeen key ttl now s).2.memory key = some (now + ttl) := by
  intro h
  set s1 := if now - s.last_cleanup > cleanupInterval then
      ({ memory := sweepExpired s.memory now, last_cleanup := now } : DedupeState)
    else s with hs1
  cases hm : s1.memory key with
  | none => simp [dedupeSeen, ← hs1, hm]
  | some e0 =>
    by_cases hgt : e0 > now
    · exfalso
      have : (dedupeSeen key ttl now s).1 = true := by
        simp [dedupeSeen, ← hs1, hm, hgt]
      rw [this] at h
      exact Bool.noConfusion h
    · simp [dedupeSeen, ← hs1, hm, hgt]

/-- C6: storage.py `DedupeStore.seen` returns true exactly when the key is
recorded with an expiry strictly above `now`, and in that case no live
entry changes (the periodic sweep only discards entries whose expiry has
already passed, so the store qua TTL-set is unchanged); otherwise it
records the key as expiring at `now + ttl` and returns false.
Consequently a fresh key yields false and then, at any instant before the
recorded expiry, true; once the clock reaches the recorded expiry it
yields false again. -/
theorem C6_dedupe_seen :
    ∀ (key : String) (ttl now : ℚ) (s : DedupeState),
    ((dedupeSeen key ttl now s).1 = true ↔
      (∃ e, s.memory key = some e ∧ e > now))
    ∧ ((dedupeSeen key ttl now s).1 = true →
        ∀ k e, ((dedupeSeen key ttl now s).2.memory k = some e ∧ e > now) ↔
          (s.memory k = some e ∧ e > now))
    ∧ ((dedupeSeen key ttl now s).1 = false →
        (dedupeSeen key ttl now s).2.memory key = some (now + ttl))
    ∧ ((dedupeSeen key ttl now s).1 = false →
        ∀ ttl2 now2, now ≤ now2 → now2 < now + ttl →
          (dedupeSeen key ttl2 now2 (dedupeSeen key ttl now s).2).1 = true)
    ∧ ((dedupeSeen key ttl now s).1 = false →
        ∀ ttl3 now3, now + ttl ≤ now3 →
          (dedupeSeen key ttl3 now3 (dedupeSeen key ttl now s).2).1 = false) := by
  intro key ttl now s
  refine ⟨dedupeSeen_true_iff key ttl now s, ?_, dedupeSeen_false_lookup key ttl now s, ?_, ?_⟩
  · intro h k e
    rw [dedupeSeen_true_state key ttl now s h]
    exact dedupeSeen_sweep_state now s k e
  · intro h ttl2 now2 _ hlt
    have hmem := dedupeSeen_false_lookup key ttl now s h
    exact (dedupeSeen_true_iff key ttl2 now2 _).mpr ⟨now + ttl, hmem, by linarith⟩
  · intro h ttl3 now3 hle
    have hmem := dedupeSeen_false_lookup key ttl now s h
    rw [Bool.eq_false_iff]
    intro hne
    obtain ⟨e, he, hgt⟩ := (dedupeSeen_true_iff key ttl3 now3 _).mp hne
    rw [hmem] at he
    obtain rfl := Option.some.inj he
    linarith

/-- Witness for C6 on a concrete run: a fresh key is reported unseen,
reported seen when queried again within the TTL, and reported unseen once
the clock has passed the recorded expiry. -/
theorem C6_dedupe_seen_witness :
    (dedupeSeen "k" 900 1000 ⟨fun _ => none, 0⟩).1 = false
    ∧ (dedupeSeen "k" 900 1000 (dedupeSeen "k" 900 1000 ⟨fun _ => none, 0⟩).2).1 = true
    ∧ (dedupeSeen "k" 900 1901 (dedupeSeen "k" 900 1000 ⟨fun _ => none, 0⟩).2).1 = false :=
  ⟨by norm_num [dedupeSeen, cleanupInterval, sweepExpired],
   (C6_dedupe_seen "k" 900 1000 ⟨fun _ => none, 0⟩).2.2.2.1
     (by norm_num [dedupeSeen, cleanupInterval, sweepExpired]) 900 1000
     (by norm_num) (by norm_num),
   (C6_dedupe_seen "k" 900 1000 ⟨fun _ => none, 0⟩).2.2.2.2
     (by norm_num [dedupeSeen, cleanupInterval, sweepExpired]) 900 1901
     (by norm_num)⟩

/-- A task without a configured window is always "inside" it: with both
fields unset, `_is_in_time_window` returns true unconditionally. -/
theorem inWindow_of_no_window (t : SchedTask) (nm : ℕ) :
    hasWindow t = false → inWindow t nm = true := by
  intro h
  rw [hasWindow, Bool.or_eq_false_iff] at h
  simp [inWindow, isInTimeWindow, h.1, h.2]

/-- The automatic gate only toggles `enabled` (and, on enabling,
`next_run`); it never touches the window fields, so the window test is
unchanged by it. -/
theorem gateTask_window_eq (t : SchedTask) (now : ℚ) (nm nm2 : ℕ) :
    inWindow (gateTask t now nm) nm2 = inWindow t nm2 := by
  rw [gateTask]
  split
  · split
    · rfl
    · split <;> rfl
  · rfl

/-- After the gate has run, an enabled task is inside its window (or has
no window at all, which counts as inside): this is why the out-of-window
`next_run` recomputation below the gate can never execute when gate and
due-check observe the same clock. -/
theorem gateTask_enabled_in_window (t : SchedTask) (now : ℚ) (nm : ℕ) :
    (gateTask t now nm).enabled = true → inWindow (gateTask t now nm) nm = true := by
  intro h
  rw [gateTask_window_eq]
  cases hw : hasWindow t with
  | false => exact inWindow_of_no_window t nm hw
  | true =>
    cases hiw : inWindow t nm with
    | true => rfl
    | false =>
      exfalso
      cases he : t.enabled with
      | true =>
        rw [gateTask, if_pos hw, if_pos ⟨he, hiw⟩] at h
        exact Bool.noConfusion h
      | false =>
        rw [gateTask, if_pos hw] at h
        rw [if_neg (by simp [he]), if_neg (by simp [hiw])] at h
        rw [he] at h
        exact Bool.noConfusion h

/-- C7 amended: the automatic gate fires an auto-disable only on a task
that is enabled but outside its window, an auto-enable only on a task
that is disabled but inside its window, and never modifies a task with
no window.  (This does not, however, protect an operator's pause: a
paused task that is inside its window is re-enabled by the gate on the
very next tick — see the counterexample.) -/
theorem C7_gate_conditions :
    ∀ (t : SchedTask) (now : ℚ) (nm : ℕ),
    (hasWindow t = false → gateTask t now nm = t)
    ∧ ((gateTask t now nm).enabled = false → t.enabled = true →
        hasWindow t = true ∧ inWindow t nm = false
        ∧ gateTask t now nm = { t with enabled := false })
    ∧ ((gateTask t now nm).enabled = true → t.enabled = false →
        hasWindow t = true ∧ inWindow t nm = true
        ∧ gateTask t now nm = { t with enabled := true, next_run := now }) := by
  intro t now nm
  refine ⟨?_, ?_, ?_⟩
  · intro h
    rw [gateTask, if_neg (by simp [h])]
  · intro hres he
    cases hw : hasWindow t with
    | false =>
      exfalso
      rw [gateTask, if_neg (by simp [hw])] at hres
      rw [he] at hres
      exact Bool.noConfusion hres
    | true =>
      cases hiw : inWindow t nm with
      | false =>
        refine ⟨rfl, rfl, ?_⟩
        rw [gateTask, if_pos hw, if_pos ⟨he, hiw⟩]
      | true =>
        exfalso
        rw [gateTask, if_pos hw, if_neg (by simp [hiw]),
          if_neg (by simp [he])] at hres
        rw [he] at hres
        exact Bool.noConfusion hres
  · intro hres he
    cases hw : hasWindow t with
    | false =>
      exfalso
      rw [gateTask, if_neg (by simp [hw])] at hres
      rw [he] at hres
      exact Bool.noConfusion hres
    | true =>
      cases hiw : inWindow t nm with
      | true =>
        refine ⟨rfl, rfl, ?_⟩
        rw [gateTask, if_pos hw, if_neg (by simp [he]), if_pos ⟨he, hiw⟩]
      | false =>
        exfalso
        rw [gateTask, if_pos hw, if_neg (by simp [he]),
          if_neg (by simp [hiw])] at hres
        rw [he] at hres
        exact Bool.noConfusion hres

/-- Counterexample to C7's consequence as stated: the operator pauses a
task whose window is 10:00-11:00 while the clock reads 10:30 (inside the
window, not at a boundary); the automatic gate of the very next tick
re-enables it. -/
theorem C7_counterexample :
    (pauseTask ⟨true, 0, 5, some "10:00", some "11:00"⟩).enabled = false
    ∧ (gateTask (pauseTask ⟨true, 0, 5, some "10:00", some "11:00"⟩) 1000 630).enabled
        = true
    ∧ ((600 : ℕ) < 630 ∧ (630 : ℕ) < 660) := by
  refine ⟨rfl, ?_, by norm_num⟩
  decide

/-- Witness for C7 at concrete inputs: a windowless task is untouched by
the gate, and a disabled task inside its window is re-enabled with
`next_run = now`. -/
theorem C7_gate_conditions_witness :
    gateTask ⟨true, 7, 5, none, none⟩ 99 0 = ⟨true, 7, 5, none, none⟩
    ∧ gateTask ⟨false, 7, 5, some "10:00", some "11:00"⟩ 99 630
        = ⟨true, 99, 5, some "10:00", some "11:00"⟩ :=
  ⟨(C7_gate_conditions ⟨true, 7, 5, none, none⟩ 99 0).1 rfl,
   ((C7_gate_conditions ⟨false, 7, 5, some "10:00", some "11:00"⟩ 99 630).2.2
       (by decide) rfl).2.2⟩

/-- The gate returns one of exactly three values: the task unchanged, the
task disabled, or the task enabled with `next_run = now`. -/
theorem gateTask_cases (t : SchedTask) (now : ℚ) (nm : ℕ) :
    gateTask t now nm = t
    ∨ gateTask t now nm = { t with enabled := false }
    ∨ gateTask t now nm = { t with enabled := true, next_run := now } := by
  rw [gateTask]
  split
  · split
    · right
      left
      rfl
    · split
      · right
        right
        rfl
      · left
        rfl
  · left
    rfl

/-- C8 amended: a tick that finds a task enabled but outside its window
disables it and leaves `next_run` unchanged (the next-window-open
recomputation in the loop body is unreachable when the gate and the due
check observe the same clock, because the gate disables first and
disabled tasks are skipped); the reverse transition re-enables the task
with `next_run = now`, upon which the same tick immediately fires it and
advances `next_run` by the interval.  In every case the tick leaves
`next_run` either untouched or equal to `now + interval_minutes * 60`;
the "today's start time or the same clock time tomorrow" value of the
original claim is never assigned. -/
theorem C8_tick_transitions :
    ∀ (t : SchedTask) (now : ℚ) (nm : ℕ) (todayAt : ℕ → ℚ),
    (t.enabled = true → hasWindow t = true → inWindow t nm = false →
        tickTask t now nm todayAt = ({ t with enabled := false }, false))
    ∧ (t.enabled = false → hasWindow t = true → inWindow t nm = true →
        gateTask t now nm = { t with enabled := true, next_run := now }
        ∧ tickTask t now nm todayAt
          = ({ t with enabled := true, next_run := now + (t.interval_minutes : ℚ) * 60 }, true))
    ∧ ((tickTask t now nm todayAt).1.next_run = t.next_run
        ∨ (tickTask t now nm todayAt).1.next_run
            = now + (t.interval_minutes : ℚ) * 60) := by
  intro t now nm todayAt
  refine ⟨?_, ?_, ?_⟩
  · intro he hw hiw
    have hgate : gateTask t now nm = { t with enabled := false } := by
      rw [gateTask, if_pos hw, if_pos ⟨he, hiw⟩]
    simp [tickTask, hgate]
  · intro he hw hiw
    have hgate : gateTask t now nm = { t with enabled := true, next_run := now } := by
      rw [gateTask, if_pos hw, if_neg (by simp [he]), if_pos ⟨he, hiw⟩]
    refine ⟨hgate, ?_⟩
    have hiw2 : inWindow { t with enabled := true, next_run := now } nm = true := hiw
    simp [tickTask, hgate, hiw2, ge_iff_le, le_refl]
  · rcases gateTask_cases t now nm with hg | hg | hg
    · cases he : t.enabled with
      | false => simp [tickTask, hg, he]
      | true =>
        have hiw : inWindow t nm = true := by
          have h2 := gateTask_enabled_in_window t now nm (by rw [hg]; exact he)
          rwa [hg] at h2
        by_cases hdue : now ≥ t.next_run
        · right
          simp [tickTask, hg, he, hiw, hdue]
        · left
          simp [tickTask, hg, he, hiw, hdue]
    · left
      simp [tickTask, hg]
    · right
      have hen : (gateTask t now nm).enabled = true := by
        rw [hg]
      have hiw : inWindow t nm = true := by
        have h2 := gateTask_enabled_in_window t now nm hen
        rwa [gateTask_window_eq] at h2
      have hiw2 : inWindow { t with enabled := true, next_run := now } nm = true := hiw
      simp [tickTask, hg, hiw2, ge_iff_le, le_refl]

/-- Counterexample to C8 as stated: a task with window 10:00-11:00,
enabled, `next_run = 0`, ticked at 12:00 is disabled with `next_run`
left at its stale value 0, not set to the next window-open instant
(under `todayAt mins = mins * 60` that instant, tomorrow 10:00, would be
`600 * 60 + 86400`, which is nonzero). -/
theorem C8_counterexample :
    tickTask ⟨true, 0, 5, some "10:00", some "11:00"⟩ 1000000 720
        (fun mins => (mins : ℚ) * 60)
      = (⟨false, 0, 5, some "10:00", some "11:00"⟩, false)
    ∧ ((0 : ℚ) < 600 * 60 + 86400) := by
  refine ⟨by decide, by norm_num⟩

/-- Witness for C8 at concrete inputs: the auto-disable transition keeps
`next_run`, and the auto-enable transition fires at once, advancing
`next_run` by the five-minute interval. -/
theorem C8_tick_transitions_witness :
    tickTask ⟨true, 3, 5, some "10:00", some "11:00"⟩ 1000000 720 (fun _ => 0)
      = (⟨false, 3, 5, some "10:00", some "11:00"⟩, false)
    ∧ tickTask ⟨false, 3, 5, some "10:00", some "11:00"⟩ 1000000 630 (fun _ => 0)
      = (⟨true, 1000000 + ((5 : ℤ) : ℚ) * 60, 5, some "10:00", some "11:00"⟩, true) :=
  ⟨(C8_tick_transitions ⟨true, 3, 5, some "10:00", some "11:00"⟩ 1000000 720
      (fun _ => 0)).1 rfl (by decide) (by decide),
   ((C8_tick_transitions ⟨false, 3, 5, some "10:00", some "11:00"⟩ 1000000 630
      (fun _ => 0)).2.1 rfl (by decide) (by decide)).2⟩

/-- C9 amended: within one `process_ca` invocation the stages run in the
order dedupe check, fetch, basic filter, (lazy) risk fetch, risk filter,
render, notify — and the dedupe store's only mutation is the initial
`seen` call itself, which is an atomic check-and-commit: the key is
recorded at check time, before fetch, and nothing after the check touches
the store (there is no post-notify commit).  A seen key stops the
pipeline at the dedupe check, and the risk fetch runs exactly when the
two-phase evaluation demands it. -/
theorem C9_pipeline_order :
    ∀ (force_push : Bool) (key : String) (now : ℚ) (fetch_ok : Bool)
      (m : TokenMetrics) (cfg : FilterConfig) (sol tok : Option ℚ)
      (render_ok : Bool) (s : DedupeState),
    List.Chain' (fun a b => stageRank a < stageRank b)
      (process_ca force_push key now fetch_ok m cfg sol tok render_ok s).trace
    ∧ (process_ca force_push key now fetch_ok m cfg sol tok render_ok s).dedupe
        = (if force_push then s else (dedupeSeen key 86400 now s).2)
    ∧ (force_push = false → (dedupeSeen key 86400 now s).1 = true →
        (process_ca force_push key now fetch_ok m cfg sol tok render_ok s).trace
          = [Stage.dedupe_check])
    ∧ (fetch_ok = true →
        (force_push = true ∨ (dedupeSeen key 86400 now s).1 = false) →
        ((process_ca force_push key now fetch_ok m cfg sol tok render_ok s).trace.contains
            Stage.risk_fetch)
          = (evaluate m cfg now sol tok).risk_fetched) := by
  intro fp key now fok m cfg sol tok rok s
  refine ⟨?_, ?_, ?_, ?_⟩
  · cases fp with
    | true =>
      cases fok with
      | false => simp [process_ca, processAfterDedupe, stageRank]
      | true =>
        cases hrf : (evaluate m cfg now sol tok).risk_fetched <;>
          cases rok <;>
            cases hp : (evaluate m cfg now sol tok).passed <;>
              simp [process_ca, processAfterDedupe, hrf, hp, stageRank]
    | false =>
      cases hseen : (dedupeSeen key 86400 now s).1 with
      | true => simp [process_ca, processAfterDedupe, hseen, stageRank]
      | false =>
        cases fok with
        | false => simp [process_ca, processAfterDedupe, hseen, stageRank]
        | true =>
          cases hrf : (evaluate m cfg now sol tok).risk_fetched <;>
            cases rok <;>
              cases hp : (evaluate m cfg now sol tok).passed <;>
                simp [process_ca, processAfterDedupe, hseen, hrf, hp, stageRank]
  · cases fp with
    | true =>
      cases fok with
      | false => simp [process_ca, processAfterDedupe]
      | true =>
        cases rok <;> cases hp : (evaluate m cfg now sol tok).passed <;>
          simp [process_ca, processAfterDedupe, hp]
    | false =>
      cases hseen : (dedupeSeen key 86400 now s).1 with
      | true => simp [process_ca, processAfterDedupe, hseen]
      | false =>
        cases fok with
        | false => simp [process_ca, processAfterDedupe, hseen]
        | true =>
          cases rok <;> cases hp : (evaluate m cfg now sol tok).passed <;>
            simp [process_ca, processAfterDedupe, hseen, hp]
  · intro h1 h2
    subst h1
    simp [process_ca, h2]
  · intro hf hor
    subst hf
    cases fp with
    | true =>
      cases hrf : (evaluate m cfg now sol tok).risk_fetched <;>
        cases rok <;>
          cases hp : (evaluate m cfg now sol tok).passed <;>
            simp [process_ca, processAfterDedupe, hrf, hp]
    | false =>
      have hseen : (dedupeSeen key 86400 now s).1 = false := by
        rcases hor with h | h
        · exact absurd h (by simp)
        · exact h
      cases hrf : (evaluate m cfg now sol tok).risk_fetched <;>
        cases rok <;>
          cases hp : (evaluate m cfg now sol tok).passed <;>
            simp [process_ca, processAfterDedupe, hseen, hrf, hp]

/-- Counterexample to C9 as stated: with a fresh store, a run whose fetch
fails (so filter, render and notify never happen) still leaves the key
committed with the full one-day TTL, because `seen` records the key at
check time; there is no commit after notification. -/
theorem C9_counterexample :
    ((process_ca false "k" 1000 false {} {} none none true
        ⟨fun _ => none, 0⟩).ok = false)
    ∧ (process_ca false "k" 1000 false {} {} none none true
        ⟨fun _ => none, 0⟩).trace = [Stage.dedupe_check, Stage.fetch]
    ∧ ((process_ca false "k" 1000 false {} {} none none true
        ⟨fun _ => none, 0⟩).trace.contains Stage.notify) = false
    ∧ (process_ca false "k" 1000 false {} {} none none true
        ⟨fun _ => none, 0⟩).dedupe.memory "k" = some (1000 + 86400)
    ∧ (((⟨fun _ => none, 0⟩ : DedupeState)).memory "k" = none) := by
  norm_num [process_ca, processAfterDedupe, dedupeSeen, cleanupInterval,
    sweepExpired]
  decide

/-- Witness for C9 at a concrete input: a key already live in the store
stops the invocation at the dedupe check, before any fetch. -/
theorem C9_pipeline_order_witness :
    (process_ca false "k" 1000 true {} {} none none true
        ⟨fun _ => some 100000, 0⟩).trace = [Stage.dedupe_check] :=
  (C9_pipeline_order false "k" 1000 true {} {} none none true
      ⟨fun _ => some 100000, 0⟩).2.2.1 rfl
    (by norm_num [dedupeSeen, cleanupInterval, sweepExpired])

/-- C10: a `process_ca` invocation with `force_push = true` — the shape of
every scheduler-triggered run, since `_run_task` passes `True` — neither
consults nor mutates the dedupe store: the store comes back unchanged, no
dedupe check appears in the trace, the run always proceeds to the fetch
(no stored key can suppress it), and the observable outcome is
independent of the store contents. -/
theorem C10_force_push_skips_dedupe :
    ∀ (key : String) (now : ℚ) (fetch_ok : Bool) (m : TokenMetrics)
      (cfg : FilterConfig) (sol tok : Option ℚ) (render_ok : Bool)
      (s s2 : DedupeState),
    (process_ca true key now fetch_ok m cfg sol tok render_ok s).dedupe = s
    ∧ ((process_ca true key now fetch_ok m cfg sol tok render_ok s).trace.contains
        Stage.dedupe_check) = false
    ∧ ((process_ca true key now fetch_ok m cfg sol tok render_ok s).trace.contains
        Stage.fetch) = true
    ∧ (process_ca true key now fetch_ok m cfg sol tok render_ok s).trace
        = (process_ca true key now fetch_ok m cfg sol tok render_ok s2).trace
    ∧ (process_ca true key now fetch_ok m cfg sol tok render_ok s).ok
        = (process_ca true key now fetch_ok m cfg sol tok render_ok s2).ok
    ∧ run_task_force_push = true := by
  intro key now fok m cfg sol tok rok s s2
  cases fok with
  | false =>
    refine ⟨rfl, ?_, ?_, rfl, rfl, rfl⟩ <;>
      simp [process_ca, processAfterDedupe]
  | true =>
    cases hrf : (evaluate m cfg now sol tok).risk_fetched <;>
      cases rok <;>
        refine ⟨rfl, ?_, ?_, rfl, rfl, rfl⟩ <;>
          simp [process_ca, processAfterDedupe, hrf]
